import Mathlib

/-!
Verification development for the country currency/exchange refresh service
(`src/server.js`).  The file embeds the two implementation variants found in
the source (a MongoDB/mongoose variant and a MySQL variant) as pure Lean
functions: HTTP fetch results, the per-record random multiplier draws, the
wall clock and the image-render body are injected as parameters, and the
persistent store is threaded explicitly.
-/

namespace CountryApi

/-- A loosely typed JSON field value, used for fields the JS code reads
without a type guard (here: `country.population`).  `jnull` stands for a
missing field, JSON `null`, or `undefined`; JS `NaN` is also modeled by
`jnull` (both are falsy and neither carries a rational value). -/
inductive JsonVal where
  | jnull : JsonVal
  | jnum : ℚ → JsonVal
  | jstr : String → JsonVal
  | jbool : Bool → JsonVal
deriving DecidableEq, Repr

/-- JavaScript truthiness of a `JsonVal`: `null`/`undefined`/`NaN` are falsy,
a number is truthy iff nonzero, a string is truthy iff nonempty. -/
def JsonVal.truthy : JsonVal → Bool
  | .jnull => false
  | .jnum q => decide (q ≠ 0)
  | .jstr s => decide (s ≠ "")
  | .jbool b => b

/-- Numeric reading of a (defaulted) `JsonVal` as it enters the JS product
`population * randomMultiplier`.  JS coerces: a boolean becomes 0/1; a
string goes through `Number(...)`, which yields `NaN` for non-numeric text.
String parsing is not modeled; a string population (and `NaN` in general)
is modeled as `none`, i.e. as an absent numeric value. -/
def JsonVal.toNum : JsonVal → Option ℚ
  | .jnum q => some q
  | .jbool b => some (if b then 1 else 0)
  | _ => none

/-- One entry of the fetched `currencies` array; the source only reads its
`code` field, which may itself be missing. -/
structure RawCurrency where
  code : Option String
deriving DecidableEq, Repr

/-- A country entry as fetched from restcountries.com
(`fields=name,capital,region,population,flag,currencies`). -/
structure RawCountry where
  name : String
  capital : Option String
  region : Option String
  population : JsonVal
  flag : Option String
  currencies : Option (List RawCurrency)
deriving DecidableEq, Repr

/-- The fetched exchange-rate table (`ratesResponse.data.rates`): a mapping
from currency code to rate. -/
abbrev RateTable := List (String × ℚ)

/-- JS property access `exchangeRates[code]`. -/
def lookupRate (rates : RateTable) (code : String) : Option ℚ :=
  rates.lookup code

/-- JS expression `x || null` on an optional string field: `undefined`,
`null` and the empty string (the only falsy string) all become `null`. -/
def strOrNull (v : Option String) : Option String :=
  match v with
  | some s => if s = "" then none else some s
  | none => none

/-- A persisted country record (the `Country` document / `countries` row).
`population` keeps the loosely typed value the JS code assigns
(`country.population || 0`); `last_refreshed_at` is a timestamp modeled as
a natural number. -/
structure CountryRecord where
  name : String
  capital : Option String
  region : Option String
  population : JsonVal
  currency_code : Option String
  exchange_rate : Option ℚ
  estimated_gdp : Option ℚ
  flag_url : Option String
  last_refreshed_at : Nat
deriving DecidableEq, Repr

/-- The per-country reconciliation step of `POST /countries/refresh`
(both variants share it verbatim): defaults for `capital`, `region`,
`population` (`|| 0`) and `flag`; `currencyCode` from the first entry of a
nonempty `currencies` array; `exchangeRate`/`estimatedGdp` only when the
code and its looked-up rate are both truthy, with
`estimatedGdp = population * randomMultiplier / exchangeRate`; and
`estimatedGdp = 0` when the `currencies` array is missing or empty.
`randomMultiplier` (the JS `Math.random() * (2000 - 1000) + 1000` draw) and
the record timestamp `ts` (the per-record `new Date()` reading in the Mongo
variant) are injected. -/
def reconcile (exchangeRates : RateTable) (randomMultiplier : ℚ) (ts : Nat)
    (country : RawCountry) : CountryRecord :=
  let population := if country.population.truthy then country.population else .jnum 0
  let base : CountryRecord :=
    { name := country.name
      capital := strOrNull country.capital
      region := strOrNull country.region
      population := population
      currency_code := none
      exchange_rate := none
      estimated_gdp := none
      flag_url := strOrNull country.flag
      last_refreshed_at := ts }
  match country.currencies with
  | some (first :: _) =>
    match first.code with
    | some cd =>
      match lookupRate exchangeRates cd with
      | some r =>
        if cd ≠ "" ∧ r ≠ 0 then
          { base with
            currency_code := some cd
            exchange_rate := some r
            estimated_gdp := population.toNum.map (fun p => p * randomMultiplier / r) }
        else
          { base with currency_code := some cd }
      | none => { base with currency_code := some cd }
    | none => base
  | _ => { base with estimated_gdp := some 0 }

/-- The reconciliation loop over the fetched array.  `draws i` is the i-th
record's fresh random multiplier; `clock` gives the wall-clock time at each
pipeline step, where step 0 is the handler entry (the refresh start), step
`i + 1` is the construction of the i-th record's update operation (its
`new Date()` reading), and step `length + 1` is the post-persistence `now`
reading. -/
def reconcileBatch (exchangeRates : RateTable) (draws : Nat → ℚ)
    (clock : Nat → Nat) : Nat → List RawCountry → List CountryRecord
  | _, [] => []
  | i, c :: cs =>
    reconcile exchangeRates (draws i) (clock (i + 1)) c ::
      reconcileBatch exchangeRates draws clock (i + 1) cs

/-- Mongo-variant upsert: `bulkWrite` of `updateOne` operations with
`filter: (name: name)` — an exact, case-sensitive match — `$set` of every
field including `name`, and `upsert: true`. -/
def upsertExactName (store : List CountryRecord) (rec : CountryRecord) :
    List CountryRecord :=
  if store.any (fun c => c.name == rec.name) then
    store.map (fun c => if c.name == rec.name then rec else c)
  else
    store ++ [rec]

/-- The MySQL unique-key value for a name: the `countries.name` column is
UNIQUE under the default case-insensitive utf8mb4 collation, modeled by
per-character lower-casing. -/
def nameKey (s : String) : List Char := s.data.map Char.toLower

/-- MySQL-variant upsert: `INSERT ... ON DUPLICATE KEY UPDATE` against the
case-insensitive unique key on `name`.  The update list does not include
`name`, so on a duplicate the existing row keeps its stored casing. -/
def upsertMySQL (store : List CountryRecord) (rec : CountryRecord) :
    List CountryRecord :=
  if store.any (fun c => nameKey c.name == nameKey rec.name) then
    store.map (fun c =>
      if nameKey c.name == nameKey rec.name then { rec with name := c.name } else c)
  else
    store ++ [rec]

/-- The `Metadata` singleton document (`_id: "global"`) / `refresh_metadata`
row. -/
structure Metadata where
  last_refreshed_at : Nat
  total_countries : Nat
deriving DecidableEq, Repr

/-- The persistent store: the country collection plus the metadata
singleton (absent until first written). -/
structure Store where
  countries : List CountryRecord
  metadata : Option Metadata
deriving DecidableEq, Repr

/-- An HTTP error response body together with its status code. -/
structure ErrorResponse where
  status : Nat
  error : String
  details : Option String
deriving DecidableEq, Repr

/-- The 503 returned when the restcountries.com fetch fails. -/
def countriesUnavailable : ErrorResponse :=
  { status := 503
    error := "External data source unavailable"
    details := some "Could not fetch data from restcountries.com" }

/-- The 503 returned when the open.er-api.com fetch fails. -/
def ratesUnavailable : ErrorResponse :=
  { status := 503
    error := "External data source unavailable"
    details := some "Could not fetch data from open.er-api.com" }

/-- The generic 500 produced by the outer catch block. -/
def internalServerError : ErrorResponse :=
  { status := 500
    error := "Internal server error"
    details := none }

/-- The success payload of `POST /countries/refresh`. -/
structure RefreshOk where
  total_countries : Nat
  last_refreshed_at : Nat
deriving DecidableEq, Repr

/-- Outcome of an attempted summary-image generation. -/
inductive RenderOutcome where
  | success : RenderOutcome
  | failed : String → RenderOutcome
deriving DecidableEq, Repr

/-- `generateSummaryImage`: its whole body (Jimp load, font loads, drawing,
`mkdir`, file write) sits inside one try/catch whose catch only logs.  The
body's outcome is injected as `bodyResult`; any error is absorbed into a
`failed` outcome that the function's caller never sees as an exception. -/
def generateSummaryImage (bodyResult : Except String Unit) : RenderOutcome :=
  match bodyResult with
  | .ok _ => .success
  | .error msg => .failed msg

/-- Everything observable about one `POST /countries/refresh` invocation:
the store afterwards, the HTTP response, and the render attempt (absent
when the pipeline aborted before rendering). -/
structure RefreshResult where
  store : Store
  response : Except ErrorResponse RefreshOk
  renderAttempt : Option RenderOutcome
deriving Repr

/-- The Mongo-variant `POST /countries/refresh` pipeline.  `countriesFetch`
and `ratesFetch` are the outcomes of the two upstream GETs (`none` = the
axios call threw); either failure returns its source-scoped 503 before any
store access.  Otherwise every fetched country is reconciled and upserted
(the 50-record batching of the source is a pure chunking of this same
sequential operation list and is flattened here), `totalCountries` is
re-counted from the store, the metadata singleton is upserted with that
count and the post-persistence clock reading, the image render is fired
(its outcome never inspected), and the response reports the same count and
timestamp. -/
def refresh (countriesFetch : Option (List RawCountry))
    (ratesFetch : Option RateTable) (draws : Nat → ℚ) (clock : Nat → Nat)
    (renderBody : Except String Unit) (s : Store) : RefreshResult :=
  match countriesFetch with
  | none =>
    { store := s, response := .error countriesUnavailable, renderAttempt := none }
  | some countriesData =>
    match ratesFetch with
    | none =>
      { store := s, response := .error ratesUnavailable, renderAttempt := none }
    | some exchangeRates =>
      let recs := reconcileBatch exchangeRates draws clock 0 countriesData
      let countriesAfter := recs.foldl upsertExactName s.countries
      let totalCountries := countriesAfter.length
      let now := clock (countriesData.length + 1)
      let meta : Metadata :=
        { last_refreshed_at := now, total_countries := totalCountries }
      { store := { countries := countriesAfter, metadata := some meta }
        response := .ok { total_countries := totalCountries, last_refreshed_at := now }
        renderAttempt := some (generateSummaryImage renderBody) }

/-- `true` iff the record passes the Mongo top-countries filter
`estimated_gdp: (ne null, gt 0)`. -/
def hasPositiveGdp (c : CountryRecord) : Bool :=
  match c.estimated_gdp with
  | some g => decide (0 < g)
  | none => false

/-- The numeric GDP sort key (records reaching the sort in either variant
have a non-null `estimated_gdp`; `none` is given key 0). -/
def gdpOf (c : CountryRecord) : ℚ :=
  match c.estimated_gdp with
  | some g => g
  | none => 0

/-- The descending-GDP comparison used by `sort(estimated_gdp: -1)` /
`ORDER BY estimated_gdp DESC`. -/
def gdpDescLe (a b : CountryRecord) : Bool :=
  decide (gdpOf b ≤ gdpOf a)

/-- Mongo-variant top-countries query:
`find(estimated_gdp: (ne null, gt 0)).sort(estimated_gdp: -1).limit(5)`. -/
def topCountriesQuery (countries : List CountryRecord) : List CountryRecord :=
  ((countries.filter hasPositiveGdp).mergeSort gdpDescLe).take 5

/-- MySQL-variant top-countries query:
`WHERE estimated_gdp IS NOT NULL ORDER BY estimated_gdp DESC LIMIT 5`. -/
def topCountriesMySQL (countries : List CountryRecord) : List CountryRecord :=
  ((countries.filter (fun c => c.estimated_gdp.isSome)).mergeSort gdpDescLe).take 5

/-- Modelled from the spec words, for comparison with `topCountriesQuery`:
"the top-5 records by estimated_gdp descending (null/absent GDP excluded
from ranking)" — i.e. the exclusion is exactly the null-GDP records. -/
def topCountriesSpecWords (countries : List CountryRecord) : List CountryRecord :=
  ((countries.filter (fun c => c.estimated_gdp.isSome)).mergeSort gdpDescLe).take 5

/-- The `GET /status` response body. -/
structure StatusResponse where
  total_countries : Nat
  last_refreshed_at : Option Nat
deriving DecidableEq, Repr

/-- The Mongo-variant `GET /status` handler: when the metadata singleton is
absent it counts the country documents and answers with a null timestamp;
otherwise it reports the singleton's fields. -/
def statusHandler (s : Store) : StatusResponse :=
  match s.metadata with
  | none => { total_countries := s.countries.length, last_refreshed_at := none }
  | some m =>
    { total_countries := m.total_countries
      last_refreshed_at := some m.last_refreshed_at }

/-! Concrete fixtures, used to evaluate the embedded operations at the
inputs of the spec's scenarios and at diverging inputs. -/

/-- A country record as already present in the store, named in upper case. -/
def storedTestland : CountryRecord :=
  { name := "TESTLAND"
    capital := some "Cap"
    region := some "TestRegion"
    population := .jnum 1000000
    currency_code := some "TST"
    exchange_rate := some 10
    estimated_gdp := some 150000000
    flag_url := some "http://x/flag.svg"
    last_refreshed_at := 0 }

/-- The spec's scenario country as fetched from Source A. -/
def fetchedTestland : RawCountry :=
  { name := "Testland"
    capital := some "Cap"
    region := some "TestRegion"
    population := .jnum 1000000
    flag := some "http://x/flag.svg"
    currencies := some [{ code := some "TST" }] }

/-- A second fetched country with a distinct name. -/
def fetchedOtherland : RawCountry :=
  { name := "Otherland"
    capital := none
    region := none
    population := .jnum 2000
    flag := none
    currencies := some [{ code := some "TST" }] }

/-- A fetched country whose population field holds a truthy non-numeric
value (the JSON string "5"). -/
def fetchedStringPop : RawCountry :=
  { name := "Stringland"
    capital := none
    region := none
    population := .jstr "5"
    flag := none
    currencies := some [] }

/-- A minimal stored record with a given name and GDP. -/
def gdpFixture (nm : String) (g : Option ℚ) : CountryRecord :=
  { name := nm
    capital := none
    region := none
    population := .jnum 0
    currency_code := none
    exchange_rate := none
    estimated_gdp := g
    flag_url := none
    last_refreshed_at := 0 }

/-! Shared lemmas about the embedded operations. -/

/-- The fields of a reconciled record that are identical across the four
currency branches: `name` passes through, `population` is the `|| 0`
default, `last_refreshed_at` is the injected per-record timestamp. -/
theorem reconcile_static_fields (er : RateTable) (m : ℚ) (ts : Nat)
    (c : RawCountry) :
    (reconcile er m ts c).name = c.name ∧
    (reconcile er m ts c).population =
      (if c.population.truthy then c.population else .jnum 0) ∧
    (reconcile er m ts c).last_refreshed_at = ts := by
  unfold reconcile
  repeat' split
  all_goals exact ⟨rfl, rfl, rfl⟩

/-- `reconcileBatch` yields one record per fetched country. -/
theorem reconcileBatch_length (er : RateTable) (draws : Nat → ℚ)
    (clock : Nat → Nat) (i0 : Nat) (cs : List RawCountry) :
    (reconcileBatch er draws clock i0 cs).length = cs.length := by
  induction cs generalizing i0 with
  | nil => rfl
  | cons c cs ih => simp [reconcileBatch, ih]

/-- The k-th record of `reconcileBatch` is the reconciliation of the k-th
fetched country under its own draw and its own clock reading. -/
theorem reconcileBatch_get (er : RateTable) (draws : Nat → ℚ)
    (clock : Nat → Nat) (i0 k : Nat) (cs : List RawCountry)
    (hk : k < cs.length) :
    (reconcileBatch er draws clock i0 cs)[k]? =
      some (reconcile er (draws (i0 + k)) (clock (i0 + k + 1))
        (cs.get ⟨k, hk⟩)) := by
  induction cs generalizing i0 k with
  | nil => exact absurd hk (by simp)
  | cons c cs ih =>
    cases k with
    | zero => simp [reconcileBatch]
    | succ k =>
      have hk2 : k < cs.length := Nat.lt_of_succ_lt_succ hk
      have h1 : i0 + 1 + k = i0 + (k + 1) := by omega
      simp only [reconcileBatch, List.getElem?_cons_succ]
      rw [ih (i0 + 1) k hk2, h1]
      rfl

end CountryApi

namespace CountryApi

/-! The claim theorems. -/

/-- C1: when either upstream fetch fails, the refresh returns with the
store untouched (no country record, no metadata written) and the error is
source-scoped: the two source errors differ from each other in their
`details`, and both differ from the generic internal failure in status and
message. -/
theorem refresh_failFast_sourceScoped (ratesFetch : Option RateTable)
    (countriesData : List RawCountry) (draws : Nat → ℚ) (clock : Nat → Nat)
    (renderBody : Except String Unit) (s : Store) :
    ((refresh none ratesFetch draws clock renderBody s).store = s ∧
      (refresh none ratesFetch draws clock renderBody s).response =
        .error countriesUnavailable) ∧
    ((refresh (some countriesData) none draws clock renderBody s).store = s ∧
      (refresh (some countriesData) none draws clock renderBody s).response =
        .error ratesUnavailable) ∧
    countriesUnavailable.details ≠ ratesUnavailable.details ∧
    countriesUnavailable.error ≠ internalServerError.error ∧
    ratesUnavailable.error ≠ internalServerError.error ∧
    countriesUnavailable.status ≠ internalServerError.status ∧
    ratesUnavailable.status ≠ internalServerError.status := by
  refine ⟨⟨rfl, rfl⟩, ⟨rfl, rfl⟩, ?_, ?_, ?_, ?_, ?_⟩ <;> decide

/-- C8: the refresh outcome is independent of the summary-image body: for
any two render-body outcomes the resulting store (metadata included) and
the HTTP response are identical, and a failing body is absorbed into a
logged `failed` outcome rather than an exception. -/
theorem renderFailure_absorbed (countriesFetch : Option (List RawCountry))
    (ratesFetch : Option RateTable) (draws : Nat → ℚ) (clock : Nat → Nat)
    (b1 b2 : Except String Unit) (s : Store) :
    ((refresh countriesFetch ratesFetch draws clock b1 s).store =
      (refresh countriesFetch ratesFetch draws clock b2 s).store ∧
    (refresh countriesFetch ratesFetch draws clock b1 s).response =
      (refresh countriesFetch ratesFetch draws clock b2 s).response) ∧
    (∀ msg : String,
      generateSummaryImage (Except.error msg) = RenderOutcome.failed msg) := by
  refine ⟨⟨?_, ?_⟩, fun _ => rfl⟩ <;>
    cases countriesFetch <;> cases ratesFetch <;> rfl

/-- C10: when the metadata singleton is absent, `GET /status` still
answers 200: it counts the stored country records and reports a null
`last_refreshed_at`. -/
theorem status_beforeFirstRefresh (s : Store) (h : s.metadata = none) :
    statusHandler s =
      { total_countries := s.countries.length, last_refreshed_at := none } := by
  unfold statusHandler
  rw [h]

/-- Witness for C10 at a concrete store holding one record and no
metadata. -/
theorem status_beforeFirstRefresh_witness :
    statusHandler { countries := [storedTestland], metadata := none } =
      { total_countries := 1, last_refreshed_at := none } :=
  status_beforeFirstRefresh { countries := [storedTestland], metadata := none } rfl

/-- C2: for a reconciled country whose first currency code is found in the
rate table, `exchange_rate` is the looked-up rate and `estimated_gdp` is
population × m / rate for that record's multiplier draw m; for positive
population and a draw in the uniform range [1000, 2000) the GDP lies in
[population·1000/rate, population·2000/rate]; and in the batch the k-th
record uses its own fresh draw `draws k`. -/
theorem reconcile_gdp_formula_bounds (exchangeRates : RateTable) (m : ℚ)
    (ts : Nat) (country : RawCountry) (first : RawCurrency)
    (rest : List RawCurrency) (cd : String) (r p : ℚ)
    (hcur : country.currencies = some (first :: rest))
    (hcode : first.code = some cd) (hcd : cd ≠ "")
    (hr : lookupRate exchangeRates cd = some r) (hrpos : 0 < r)
    (hp : country.population = .jnum p) (hppos : 0 < p)
    (hm1 : 1000 ≤ m) (hm2 : m < 2000) :
    (reconcile exchangeRates m ts country).exchange_rate = some r ∧
    (reconcile exchangeRates m ts country).estimated_gdp = some (p * m / r) ∧
    p * 1000 / r ≤ p * m / r ∧ p * m / r ≤ p * 2000 / r ∧
    (∀ (draws : Nat → ℚ) (clock : Nat → Nat) (cs : List RawCountry) (k : Nat)
      (hk : k < cs.length), cs.get ⟨k, hk⟩ = country →
      (reconcileBatch exchangeRates draws clock 0 cs)[k]? =
        some (reconcile exchangeRates (draws k) (clock (k + 1)) country)) := by
  have hpne : p ≠ 0 := ne_of_gt hppos
  have hrne : r ≠ 0 := ne_of_gt hrpos
  refine ⟨?_, ?_, ?_, ?_, ?_⟩
  · simp [reconcile, hcur, hcode, hr, hp, JsonVal.truthy, JsonVal.toNum,
      hpne, hcd, hrne]
  · simp [reconcile, hcur, hcode, hr, hp, JsonVal.truthy, JsonVal.toNum,
      hpne, hcd, hrne]
  · exact div_le_div_of_nonneg_right
      (mul_le_mul_of_nonneg_left hm1 hppos.le) hrpos.le
  · exact div_le_div_of_nonneg_right
      (mul_le_mul_of_nonneg_left hm2.le hppos.le) hrpos.le
  · intro draws clock cs k hk hck
    rw [reconcileBatch_get exchangeRates draws clock 0 k cs hk, hck]
    simp


/-- Witness for C2 at the spec's scenario: draw 1500, population 1000000,
rate 10 yield exchange_rate 10 and estimated_gdp 150000000. -/
theorem reconcile_gdp_formula_bounds_witness :
    (reconcile [("TST", 10)] 1500 1 fetchedTestland).exchange_rate = some 10 ∧
    (reconcile [("TST", 10)] 1500 1 fetchedTestland).estimated_gdp =
      some 150000000 := by
  have h := reconcile_gdp_formula_bounds [("TST", 10)] 1500 1 fetchedTestland
    { code := some "TST" } [] "TST" 10 1000000 rfl rfl (by decide) rfl
    (by norm_num) rfl (by norm_num) (by norm_num) (by norm_num)
  exact ⟨h.1, by rw [h.2.1]; norm_num⟩

/-- C3: a country with a missing or empty currency list is stored with no
currency code, no exchange rate and estimated_gdp exactly 0; a country
whose first currency code is absent from the rate table keeps that code
but gets null exchange_rate and null estimated_gdp; and the two outcomes
(`some 0` versus `none`) are never conflated. -/
theorem reconcile_zero_vs_unknown (exchangeRates : RateTable) (m : ℚ)
    (ts : Nat) :
    (∀ country : RawCountry,
      country.currencies = none ∨ country.currencies = some [] →
      (reconcile exchangeRates m ts country).currency_code = none ∧
      (reconcile exchangeRates m ts country).exchange_rate = none ∧
      (reconcile exchangeRates m ts country).estimated_gdp = some 0) ∧
    (∀ (country : RawCountry) (first : RawCurrency)
      (rest : List RawCurrency) (cd : String),
      country.currencies = some (first :: rest) → first.code = some cd →
      lookupRate exchangeRates cd = none →
      (reconcile exchangeRates m ts country).currency_code = some cd ∧
      (reconcile exchangeRates m ts country).exchange_rate = none ∧
      (reconcile exchangeRates m ts country).estimated_gdp = none) ∧
    (some (0 : ℚ) ≠ (none : Option ℚ)) := by
  refine ⟨?_, ?_, by decide⟩
  · rintro country (h | h) <;>
      exact ⟨by simp [reconcile, h], by simp [reconcile, h],
        by simp [reconcile, h]⟩
  · intro country first rest cd hcur hcode hr
    exact ⟨by simp [reconcile, hcur, hcode, hr],
      by simp [reconcile, hcur, hcode, hr],
      by simp [reconcile, hcur, hcode, hr]⟩

/-- Witness for C3: the empty-currency fixture gets GDP exactly 0, and the
scenario country under an empty rate table gets null GDP. -/
theorem reconcile_zero_vs_unknown_witness :
    (reconcile [] 1500 0 fetchedStringPop).estimated_gdp = some 0 ∧
    (reconcile [] 1500 0 fetchedTestland).estimated_gdp = none := by
  refine ⟨((reconcile_zero_vs_unknown [] 1500 0).1 fetchedStringPop
    (Or.inr rfl)).2.2, ?_⟩
  exact ((reconcile_zero_vs_unknown [] 1500 0).2.1 fetchedTestland
    { code := some "TST" } [] "TST" rfl rfl rfl).2.2

/-- C9 counterexample: a fetched population holding the truthy non-numeric
JSON string "5" is stored unchanged by `population || 0`, not replaced by
0. -/
theorem population_passthrough_counterexample :
    (reconcile [] 1500 0 fetchedStringPop).population = .jstr "5" ∧
    JsonVal.jstr "5" ≠ JsonVal.jnum 0 := by
  constructor <;> decide

/-- C9 amended: reconciliation stores population 0 exactly when the
fetched value is falsy (missing/null/undefined, 0, NaN, the empty string,
false); any truthy value — numeric or not — passes through unchanged.  In
particular a missing population is stored as 0. -/
theorem population_default_amended (exchangeRates : RateTable) (m : ℚ)
    (ts : Nat) (country : RawCountry) :
    (reconcile exchangeRates m ts country).population =
      (if country.population.truthy then country.population else .jnum 0) ∧
    (country.population = .jnull →
      (reconcile exchangeRates m ts country).population = .jnum 0) := by
  refine ⟨(reconcile_static_fields exchangeRates m ts country).2.1,
    fun h => ?_⟩
  rw [(reconcile_static_fields exchangeRates m ts country).2.1, h]
  rfl

/-- Witness for C9-amended: a country fetched with a missing population is
stored with population 0. -/
theorem population_default_amended_witness :
    (reconcile [] 1500 0
      { fetchedStringPop with population := .jnull }).population =
      JsonVal.jnum 0 :=
  (population_default_amended [] 1500 0
    { fetchedStringPop with population := .jnull }).2 rfl

/-- C4, the code observed at the failing input: with "TESTLAND" already
stored and "Testland" fetched, the Mongo-variant refresh matches the
upsert filter case-sensitively and so leaves two records differing only by
case; the MySQL-variant upsert does match case-insensitively but keeps the
stored casing rather than the as-fetched one. -/
theorem upsert_caseSensitivity_divergence :
    ((refresh (some [fetchedTestland]) (some [("TST", 10)]) (fun _ => 1500)
        (fun i => i) (Except.ok ())
        { countries := [storedTestland], metadata := none }
      ).store.countries.map CountryRecord.name = ["TESTLAND", "Testland"]) ∧
    ((upsertMySQL [storedTestland]
        (reconcile [("TST", 10)] 1500 1 fetchedTestland)).map
        CountryRecord.name = ["TESTLAND"]) := by
  constructor <;> decide

/-- C5 counterexample: with the strictly increasing clock i ↦ i and one
fetched country, a successful refresh writes metadata with
last_refreshed_at = 2, the post-persistence reading (pipeline step 2),
while the wall clock at the refresh start (step 0) read 0. -/
theorem metadata_startTime_counterexample :
    ((refresh (some [fetchedTestland]) (some [("TST", 10)]) (fun _ => 1500)
        (fun i => i) (Except.ok ()) { countries := [], metadata := none }
      ).store.metadata =
      some { last_refreshed_at := 2, total_countries := 1 }) ∧
    (2 : Nat) ≠ (fun i : Nat => i) 0 := by
  constructor <;> decide

/-- C5 amended: on every successful refresh the metadata singleton is
written with total_countries equal to the resulting store's row count (not
the batch size) and last_refreshed_at equal to the clock reading taken
after persistence (pipeline step length+1) — not the refresh start time —
and the response reports exactly that same count and timestamp. -/
theorem metadata_update_amended (countriesData : List RawCountry)
    (exchangeRates : RateTable) (draws : Nat → ℚ) (clock : Nat → Nat)
    (renderBody : Except String Unit) (s : Store) :
    (refresh (some countriesData) (some exchangeRates) draws clock
        renderBody s).store.metadata =
      some { last_refreshed_at := clock (countriesData.length + 1),
             total_countries :=
               (refresh (some countriesData) (some exchangeRates) draws
                 clock renderBody s).store.countries.length } ∧
    (refresh (some countriesData) (some exchangeRates) draws clock
        renderBody s).response =
      Except.ok { total_countries :=
                    (refresh (some countriesData) (some exchangeRates)
                      draws clock renderBody s).store.countries.length,
                  last_refreshed_at := clock (countriesData.length + 1) } :=
  ⟨rfl, rfl⟩

/-- C7 counterexample: with the strictly increasing clock i ↦ i, a refresh
of two fetched countries stores last_refreshed_at 1 on the first record
and 2 on the second — two distinct per-record readings, so the batch is
not uniform. -/
theorem perRecord_timestamp_counterexample :
    ((refresh (some [fetchedTestland, fetchedOtherland]) (some [("TST", 10)])
        (fun _ => 1500) (fun i => i) (Except.ok ())
        { countries := [], metadata := none }
      ).store.countries.map CountryRecord.last_refreshed_at = [1, 2]) ∧
    (1 : Nat) ≠ 2 := by
  constructor <;> decide

/-- C7 amended: the record built for the k-th fetched country carries
last_refreshed_at equal to the per-record clock reading taken when its
update operation is constructed (pipeline step k+1) — a per-record clock
reading, not one batch-uniform refresh-start timestamp. -/
theorem perRecord_timestamp_amended (exchangeRates : RateTable)
    (draws : Nat → ℚ) (clock : Nat → Nat) (cs : List RawCountry) (k : Nat)
    (hk : k < cs.length) :
    ∃ rec : CountryRecord,
      (reconcileBatch exchangeRates draws clock 0 cs)[k]? = some rec ∧
      rec.last_refreshed_at = clock (k + 1) := by
  refine ⟨_, reconcileBatch_get exchangeRates draws clock 0 k cs hk, ?_⟩
  simpa using (reconcile_static_fields exchangeRates (draws (0 + k))
    (clock (0 + k + 1)) (cs.get ⟨k, hk⟩)).2.2

/-- Witness for C7-amended: in a two-country batch under the clock i ↦ i,
the second record's timestamp is the step-2 reading. -/
theorem perRecord_timestamp_amended_witness :
    ∃ rec : CountryRecord,
      (reconcileBatch [("TST", 10)] (fun _ => 1500) (fun i => i) 0
        [fetchedTestland, fetchedOtherland])[1]? = some rec ∧
      rec.last_refreshed_at = 2 :=
  perRecord_timestamp_amended [("TST", 10)] (fun _ => 1500) (fun i => i)
    [fetchedTestland, fetchedOtherland] 1 (by decide)

/-- `gdpDescLe` is transitive. -/
theorem gdpDescLe_trans (a b c : CountryRecord) (hab : gdpDescLe a b = true)
    (hbc : gdpDescLe b c = true) : gdpDescLe a c = true := by
  simp only [gdpDescLe, decide_eq_true_eq] at hab hbc ⊢
  exact le_trans hbc hab

/-- `gdpDescLe` is total. -/
theorem gdpDescLe_total (a b : CountryRecord) :
    (gdpDescLe a b || gdpDescLe b a) = true := by
  simp only [gdpDescLe, Bool.or_eq_true, decide_eq_true_eq]
  exact le_total (gdpOf b) (gdpOf a)

/-- C6 counterexample: a stored record with estimated_gdp exactly 0 (the
no-currency case) is excluded by the Mongo-variant top-countries query
even though its GDP is not null, so the exclusion is not exactly the
null-GDP records; the spec-worded selection would keep it among the
highest values when fewer than 5 candidates exist. -/
theorem top5_excludesZero_counterexample :
    topCountriesQuery [gdpFixture "A" (some 5), gdpFixture "B" (some 0)] =
      [gdpFixture "A" (some 5)] ∧
    topCountriesSpecWords
        [gdpFixture "A" (some 5), gdpFixture "B" (some 0)] =
      [gdpFixture "A" (some 5), gdpFixture "B" (some 0)] ∧
    (gdpFixture "B" (some 0)).estimated_gdp ≠ none := by
  refine ⟨?_, ?_, by decide⟩ <;>
    simp [topCountriesQuery, topCountriesSpecWords, gdpFixture,
      hasPositiveGdp, gdpDescLe, gdpOf, List.mergeSort, List.merge]

/-- C6 amended: the Mongo-variant top-5 query excludes exactly the records
whose estimated_gdp is null or not positive (so the GDP-0 no-currency
records are excluded as well, not only the null ones); every selected
record is a stored record with positive GDP, the selection has
min 5 (filtered length) elements, every passed-over filtered record ranks
no higher than any selected one, and when the filtered records carry
pairwise distinct GDP values the selection is sorted strictly descending
by estimated_gdp. -/
theorem top5_amended (countries : List CountryRecord) :
    (∀ c ∈ topCountriesQuery countries,
      c ∈ countries ∧ ∃ g : ℚ, c.estimated_gdp = some g ∧ 0 < g) ∧
    (topCountriesQuery countries).length =
      min 5 (countries.filter hasPositiveGdp).length ∧
    (∀ c ∈ countries.filter hasPositiveGdp,
      c ∉ topCountriesQuery countries →
      ∀ d ∈ topCountriesQuery countries, gdpOf c ≤ gdpOf d) ∧
    ((countries.filter hasPositiveGdp).Pairwise
        (fun a b => gdpOf a ≠ gdpOf b) →
      (topCountriesQuery countries).Pairwise
        (fun a b => gdpOf b < gdpOf a)) := by
  have hperm : ((countries.filter hasPositiveGdp).mergeSort gdpDescLe).Perm
      (countries.filter hasPositiveGdp) :=
    List.mergeSort_perm (countries.filter hasPositiveGdp) gdpDescLe
  have hsorted : ((countries.filter hasPositiveGdp).mergeSort
      gdpDescLe).Pairwise (fun a b => gdpOf b ≤ gdpOf a) := by
    refine List.Pairwise.imp ?_
      (List.sorted_mergeSort gdpDescLe_trans gdpDescLe_total
        (countries.filter hasPositiveGdp))
    intro a b h
    simpa [gdpDescLe] using h
  unfold topCountriesQuery
  refine ⟨?_, ?_, ?_, ?_⟩
  · intro c hc
    have hcF := hperm.mem_iff.mp (List.mem_of_mem_take hc)
    rw [List.mem_filter] at hcF
    refine ⟨hcF.1, ?_⟩
    have hpos := hcF.2
    rcases hgd : c.estimated_gdp with _ | g
    · simp [hasPositiveGdp, hgd] at hpos
    · refine ⟨g, rfl, ?_⟩
      simpa [hasPositiveGdp, hgd] using hpos
  · rw [List.length_take, hperm.length_eq]
  · intro c hcF hcnot d hd
    have hsplit : (((countries.filter hasPositiveGdp).mergeSort
        gdpDescLe).take 5 ++ ((countries.filter hasPositiveGdp).mergeSort
        gdpDescLe).drop 5).Pairwise (fun a b => gdpOf b ≤ gdpOf a) := by
      rw [List.take_append_drop]
      exact hsorted
    obtain ⟨-, -, hcross⟩ := List.pairwise_append.mp hsplit
    have hcS : c ∈ (countries.filter hasPositiveGdp).mergeSort gdpDescLe :=
      hperm.mem_iff.mpr hcF
    rw [← List.take_append_drop 5 ((countries.filter
      hasPositiveGdp).mergeSort gdpDescLe)] at hcS
    rcases List.mem_append.mp hcS with hcT | hcD
    · exact absurd hcT hcnot
    · exact hcross d hd c hcD
  · intro hne
    have hneS : ((countries.filter hasPositiveGdp).mergeSort
        gdpDescLe).Pairwise (fun a b => gdpOf a ≠ gdpOf b) :=
      (List.Perm.pairwise_iff (fun h => h.symm) hperm).mpr hne
    have hlt : ((countries.filter hasPositiveGdp).mergeSort
        gdpDescLe).Pairwise (fun a b => gdpOf b < gdpOf a) :=
      (hsorted.and hneS).imp (fun h => lt_of_le_of_ne h.1 (Ne.symm h.2))
    exact List.Pairwise.sublist (List.take_sublist 5 _) hlt

/-- Witness for C6-amended at a concrete two-record store with distinct
positive GDP values: the selection is strictly descending. -/
theorem top5_amended_witness :
    (topCountriesQuery [gdpFixture "B" (some 3), gdpFixture "A" (some 5)]).Pairwise
      (fun a b => gdpOf b < gdpOf a) :=
  (top5_amended [gdpFixture "B" (some 3), gdpFixture "A" (some 5)]).2.2.2
    (by decide)

end CountryApi
